import Mathlib

/- Shallow embedding of mobile-app/src/config/api.js: a resilient API client
   with bounded retry, multi-host fallback, bearer-token injection, a health
   check and a host-discovery probe.

   The HTTP transport (fetch composed with withTimeout) and the JSON parser
   are modelled as an environment: fetch is keyed by the full URL, the
   timeout passed to withTimeout, the Authorization header value (if one is
   attached) and the 1-based attempt number inside one makeApiRequest
   invocation.  Request construction that cannot influence the observable
   control flow of the file (method dispatch on the second argument, header
   merging, body stringification) is folded into the environment's fetch
   function; console logging is dropped.  AsyncStorage is modelled by the
   single key "user" that this file reads and removes. -/

/-- DEVELOPMENT_API_URLS (api.js lines 4-8). -/
def DEVELOPMENT_API_URLS : List String :=
  ["http://192.168.100.46:3000/api",
   "http://192.168.100.1:3000/api",
   "http://localhost:3000/api"]

/-- MAX_RETRIES (api.js line 13). -/
def MAX_RETRIES : Nat := 3

/-- TIMEOUT_MS (api.js line 14). -/
def TIMEOUT_MS : Nat := 10000

/-- The process-wide mutable state of the module: API_BASE_URL and
currentApiIndex (api.js lines 10-11; a JS number, since Array.indexOf can
produce -1 it is an Int), plus the AsyncStorage record stored under the
key "user" (none when absent). -/
structure ApiState where
  apiBaseUrl : String
  currentApiIndex : Int
  userData : Option String
deriving Repr, DecidableEq

/-- A parsed JSON document, restricted to what api.js observes: the
optional string fields `message` and `error` read on error responses, and
an uninterpreted remainder that keeps distinct documents distinct. -/
structure JsonVal where
  message : Option String
  error : Option String
  rest : String
deriving Repr, DecidableEq

/-- The empty JSON object, used for an empty response body. -/
def emptyJson : JsonVal := ⟨none, none, ""⟩

/-- An HTTP response as observed by api.js: status, the content-type
header (the empty string when absent) and the body text. -/
structure Resp where
  status : Nat
  contentType : String
  body : String
deriving Repr, DecidableEq

/-- Outcome of one fetch-with-timeout: a rejection (network error or
"Request timeout") carrying the error message, or a response. -/
inductive FetchOutcome where
  | err (msg : String)
  | ok (r : Resp)
deriving Repr, DecidableEq

/-- The parsed "user" record as read by getAuthToken: the three accepted
token field names (api.js line 46). -/
structure UserData where
  token : Option String
  access_token : Option String
  accessToken : Option String
deriving Repr, DecidableEq

/-- The ambient platform: the HTTP transport keyed by full URL, timeout,
Authorization header value and per-invocation attempt number; JSON.parse
on a response body; and JSON.parse specialised to the stored "user"
record.  A parse failure carries the platform's error message. -/
structure Env where
  fetch : String → Nat → Option String → Nat → FetchOutcome
  parse : String → Except String JsonVal
  parseUser : String → Except String UserData

/-- JS string truthiness on a possibly-absent string: undefined/null and
the empty string are falsy. -/
def jsTruthy : Option String → Option String
  | none => none
  | some s => if s = "" then none else some s

/-- JS `a || b` on possibly-absent strings: a when truthy, else b. -/
def jsOrV (a b : Option String) : Option String :=
  match jsTruthy a with
  | some _ => a
  | none => b

/-- Does the character list start with the pattern? -/
def startsWithL : List Char → List Char → Bool
  | _, [] => true
  | [], _ :: _ => false
  | c :: cs, p :: ps => c == p && startsWithL cs ps

/-- Substring occurrence on character lists. -/
def containsL : List Char → List Char → Bool
  | [], pat => pat.isEmpty
  | c :: cs, pat => startsWithL (c :: cs) pat || containsL cs pat

/-- JS String.prototype.includes, as used on error messages and the
content-type header. -/
def strContains (s pat : String) : Bool := containsL s.data pat.data

/-- getAuthToken (api.js lines 41-52): read the "user" record, parse it,
return `token || access_token || accessToken`; any failure yields null. -/
def getAuthToken (env : Env) (st : ApiState) : Option String :=
  match st.userData with
  | none => none
  | some s =>
    match env.parseUser s with
    | .error _ => none
    | .ok u => jsOrV (jsOrV u.token u.access_token) u.accessToken

/-- Response.ok: status in the range 200-299. -/
def respOk (status : Nat) : Bool := 200 ≤ status && status < 300

/-- JS String.prototype.trim: drop whitespace from both ends. -/
def jsTrim (s : String) : String :=
  ⟨((s.data.dropWhile Char.isWhitespace).reverse.dropWhile Char.isWhitespace).reverse⟩

/-- Body handling in makeApiRequest (api.js lines 206-212): a body that is
empty after trimming is an empty object; otherwise JSON.parse, a parse
failure being rethrown with the "Invalid JSON response: " prefix. -/
def parseBody (env : Env) (text : String) : Except String JsonVal :=
  if jsTrim text = "" then .ok emptyJson
  else
    match env.parse text with
    | .ok v => .ok v
    | .error pe => .error ("Invalid JSON response: " ++ pe)

/-- The error message thrown for an HTML content-type (api.js line 203). -/
def htmlErrorMsg (baseUrl : String) : String :=
  "❌ Server returned HTML error page. Check if API server is running at " ++ baseUrl

/-- One iteration body of the retry loop in makeApiRequest (api.js lines
195-230): fetch with the 10s timeout, reject an HTML content-type, parse
the body, return the data on a 2xx status, and classify non-2xx statuses;
a 401 also deletes the stored "user" record before throwing. -/
def oneAttempt (env : Env) (baseUrl endpoint : String) (auth : Option String)
    (attempt : Nat) (st : ApiState) : Except String JsonVal × ApiState :=
  match env.fetch (baseUrl ++ endpoint) TIMEOUT_MS auth attempt with
  | .err m => (.error m, st)
  | .ok r =>
    if strContains r.contentType "text/html" then
      (.error (htmlErrorMsg baseUrl), st)
    else
      match parseBody env r.body with
      | .error m => (.error m, st)
      | .ok data =>
        if respOk r.status then (.ok data, st)
        else
          let errorMessage :=
            match jsTruthy data.message with
            | some s => s
            | none =>
              match jsTruthy data.error with
              | some s => s
              | none => "HTTP " ++ toString r.status
          if r.status == 401 then
            (.error "Authentication failed", ⟨st.apiBaseUrl, st.currentApiIndex, none⟩)
          else if r.status == 404 then (.error "API endpoint not found", st)
          else if r.status == 500 then (.error "Server internal error", st)
          else (.error errorMessage, st)

/-- Observable outcome of one makeApiRequest invocation: the returned data
or thrown error message, the state after it, the number of HTTP attempts
performed, and the backoff waits (in ms) performed between attempts, in
order. -/
structure RunOut where
  result : Except String JsonVal
  state : ApiState
  attempts : Nat
  waits : List Nat
deriving Repr

/-- The retry loop of makeApiRequest (api.js lines 192-251), with the
attempt counter threaded explicitly and structural fuel
(MAX_RETRIES - attempt + 1).  The loop always exits through its break
condition (which includes attempt == MAX_RETRIES) or a return, so the
fuel-0 case corresponds to the trailing `throw lastError` after the loop,
which throws undefined when no attempt ran. -/
def makeApiRequestAux (env : Env) (baseUrl endpoint : String) (auth : Option String) :
    Nat → Nat → Option String → ApiState → RunOut
  | 0, _, lastError, st => ⟨.error (lastError.getD "undefined"), st, 0, []⟩
  | fuel + 1, attempt, _, st =>
    let step := oneAttempt env baseUrl endpoint auth attempt st
    match step.1 with
    | .ok d => ⟨.ok d, step.2, 1, []⟩
    | .error m =>
      if strContains m "Authentication failed" || strContains m "not found"
          || attempt == MAX_RETRIES then
        ⟨.error m, step.2, 1, []⟩
      else
        let rest := makeApiRequestAux env baseUrl endpoint auth fuel (attempt + 1) (some m) step.2
        ⟨rest.result, rest.state, rest.attempts + 1, attempt * 1000 :: rest.waits⟩

/-- makeApiRequest (api.js lines 152-252): resolve the auth token once,
attach the Authorization bearer header when the token is truthy, and run
the retry loop starting at attempt 1. -/
def makeApiRequest (env : Env) (baseUrl endpoint : String) (st : ApiState) : RunOut :=
  let auth := (jsTruthy (getAuthToken env st)).map (fun t => "Bearer " ++ t)
  makeApiRequestAux env baseUrl endpoint auth MAX_RETRIES 1 none st

/-- One host tried during an apiCall: its base URL, the number of HTTP
attempts made against it, the outcome, and the backoff waits. -/
structure HostTry where
  url : String
  attempts : Nat
  res : Except String JsonVal
  waits : List Nat

/-- Observable outcome of one apiCall: the returned data or thrown error
message, the state after the call, and the hosts tried in order. -/
structure CallOut where
  result : Except String JsonVal
  state : ApiState
  trace : List HostTry

/-- JS Array.prototype.indexOf (first occurrence, -1 when absent). -/
def jsIndexOfAux (s : String) : List String → Int
  | [] => -1
  | x :: xs =>
    if x == s then 0
    else
      let r := jsIndexOfAux s xs
      if r == -1 then -1 else r + 1

/-- JS Array.prototype.indexOf with the receiver first. -/
def jsIndexOf (l : List String) (s : String) : Int := jsIndexOfAux s l

/-- The development-fallback loop of apiCall (api.js lines 129-149):
iterate the configured hosts, skip the one equal to the base URL already
tried, run makeApiRequest once per remaining host; on success promote
that host to API_BASE_URL/currentApiIndex and return; when the list is
exhausted throw the aggregate error built from lastError (which apiCall
set only for the first host) and the attemptedUrls count. -/
def fallbackLoop (env : Env) (endpoint skipUrl lastErrorMsg : String)
    (attemptedUrls : List String) (acc : List HostTry) (st : ApiState) :
    List String → CallOut
  | [] =>
    ⟨.error ("API call failed: " ++ lastErrorMsg ++ ". Tried "
        ++ toString attemptedUrls.length ++ " endpoints."), st, acc⟩
  | devUrl :: rest =>
    if devUrl == skipUrl then
      fallbackLoop env endpoint skipUrl lastErrorMsg attemptedUrls acc st rest
    else
      let r := makeApiRequest env devUrl endpoint st
      match r.result with
      | .ok d =>
        ⟨.ok d, ⟨devUrl, jsIndexOf DEVELOPMENT_API_URLS devUrl, r.state.userData⟩,
          acc ++ [⟨devUrl, r.attempts, r.result, r.waits⟩]⟩
      | .error _ =>
        fallbackLoop env endpoint skipUrl lastErrorMsg (attemptedUrls ++ [devUrl])
          (acc ++ [⟨devUrl, r.attempts, r.result, r.waits⟩]) r.state rest

/-- apiCall (api.js lines 115-150): try the current API_BASE_URL first;
on failure record it in attemptedUrls, remember its error as lastError,
and run the development-fallback loop. -/
def apiCall (env : Env) (endpoint : String) (st : ApiState) : CallOut :=
  let first := makeApiRequest env st.apiBaseUrl endpoint st
  match first.result with
  | .ok d => ⟨.ok d, first.state, [⟨st.apiBaseUrl, first.attempts, .ok d, first.waits⟩]⟩
  | .error m =>
    fallbackLoop env endpoint st.apiBaseUrl m [st.apiBaseUrl]
      [⟨st.apiBaseUrl, first.attempts, .error m, first.waits⟩] first.state DEVELOPMENT_API_URLS

/-- JS array indexing DEVELOPMENT_API_URLS[i]: undefined out of range. -/
def jsGet (l : List String) (i : Int) : String :=
  if h : 0 ≤ i ∧ i.toNat < l.length then l.get ⟨i.toNat, h.2⟩ else "undefined"

/-- switchToNextApiUrl (api.js lines 254-262): advance to the next
configured host when one remains, returning it; otherwise return null and
leave the state unchanged. -/
def switchToNextApiUrl (st : ApiState) : Option String × ApiState :=
  if st.currentApiIndex < (DEVELOPMENT_API_URLS.length : Int) - 1 then
    let i := st.currentApiIndex + 1
    (some (jsGet DEVELOPMENT_API_URLS i), ⟨jsGet DEVELOPMENT_API_URLS i, i, st.userData⟩)
  else (none, st)

/-- The structured result of checkServerHealth, mirroring the literal
objects it returns (absent fields are none). -/
structure HealthOut where
  healthy : Bool
  status : Option Nat
  data : Option JsonVal
  error : Option String
deriving Repr, DecidableEq

/-- checkServerHealth (api.js lines 55-82): one GET against
API_BASE_URL/debug/test with an 8s timeout and no Authorization header;
2xx parses the body and reports healthy with status and payload, non-2xx
reports unhealthy with the status, and any thrown error (transport,
timeout, body parse) is caught and reported as unhealthy with the error
message. -/
def checkServerHealth (env : Env) (st : ApiState) : HealthOut :=
  match env.fetch (st.apiBaseUrl ++ "/debug/test") 8000 none 1 with
  | .err m => ⟨false, none, none, some m⟩
  | .ok r =>
    if respOk r.status then
      match env.parse r.body with
      | .ok d => ⟨true, some r.status, some d, none⟩
      | .error pe => ⟨false, none, none, some pe⟩
    else ⟨false, some r.status, none, none⟩

/-- The structured result of testMultipleIPs. -/
structure TestOut where
  success : Bool
  url : Option String
  type : Option String
  error : Option String
deriving Repr, DecidableEq

/-- The loop body of testMultipleIPs (api.js lines 88-109) over the
enumerated host list: probe each host's /debug/test with a 3s timeout and
no Authorization header; a thrown error or a non-2xx response moves on to
the next host; the first 2xx response promotes that host (and its index)
and returns success. -/
def testMultipleIPsAux (env : Env) (st : ApiState) :
    List (Nat × String) → TestOut × ApiState
  | [] => (⟨false, none, none, some "No API endpoints are reachable"⟩, st)
  | (i, testUrl) :: rest =>
    match env.fetch (testUrl ++ "/debug/test") 3000 none 1 with
    | .err _ => testMultipleIPsAux env st rest
    | .ok r =>
      if respOk r.status then
        (⟨true, some testUrl, some "development", none⟩,
          ⟨testUrl, (i : Int), st.userData⟩)
      else testMultipleIPsAux env st rest

/-- testMultipleIPs (api.js lines 84-113). -/
def testMultipleIPs (env : Env) (st : ApiState) : TestOut × ApiState :=
  testMultipleIPsAux env st DEVELOPMENT_API_URLS.enum

/-- The module state at load (api.js lines 10-11), with no stored user. -/
def initialState : ApiState := ⟨jsGet DEVELOPMENT_API_URLS 0, 0, none⟩

/-- The documented invariant on the process-wide state: the host list is
nonempty and currentApiIndex is in bounds. -/
def stateInv (st : ApiState) : Prop :=
  DEVELOPMENT_API_URLS ≠ [] ∧ 0 ≤ st.currentApiIndex ∧
    st.currentApiIndex < (DEVELOPMENT_API_URLS.length : Int)

/- Concrete facts about the fixed strings used by the retry classifier,
evaluated once and reused below. -/

lemma strContains_sie_auth : strContains "Server internal error" "Authentication failed" = false := by decide

lemma strContains_sie_nf : strContains "Server internal error" "not found" = false := by decide

lemma strContains_auth_auth : strContains "Authentication failed" "Authentication failed" = true := by decide

lemma strContains_enf_nf : strContains "API endpoint not found" "not found" = true := by decide

lemma respOk_500 : respOk 500 = false := by decide

lemma respOk_401 : respOk 401 = false := by decide

lemma respOk_404 : respOk 404 = false := by decide

/- Behaviour of one makeApiRequest invocation under a host with a fixed
per-attempt behaviour.  These lemmas unroll the retry loop. -/

/-- A host whose every attempt rejects (network error or timeout) with a
message that matches neither break substring: all 3 attempts run, with the
linear-backoff waits, and the state is untouched. -/
lemma makeApiRequest_all_reject (env : Env) (b e : String) (st : ApiState) (m : String)
    (h : ∀ t a, env.fetch (b ++ e) TIMEOUT_MS t a = .err m)
    (hm1 : strContains m "Authentication failed" = false)
    (hm2 : strContains m "not found" = false) :
    makeApiRequest env b e st = ⟨.error m, st, 3, [1000, 2000]⟩ := by
  simp [makeApiRequest, makeApiRequestAux, oneAttempt, h, hm1, hm2, MAX_RETRIES]

/-- A host whose every attempt rejects with a message that matches a break
substring: the loop stops after one attempt. -/
lemma makeApiRequest_reject_break (env : Env) (b e : String) (st : ApiState) (m : String)
    (h : ∀ t a, env.fetch (b ++ e) TIMEOUT_MS t a = .err m)
    (hm : strContains m "Authentication failed" = true ∨ strContains m "not found" = true) :
    makeApiRequest env b e st = ⟨.error m, st, 1, []⟩ := by
  cases hm with
  | inl hm => simp [makeApiRequest, makeApiRequestAux, oneAttempt, h, hm, MAX_RETRIES]
  | inr hm => simp [makeApiRequest, makeApiRequestAux, oneAttempt, h, hm, MAX_RETRIES]

/-- A host answering 500 with a parseable (or empty) non-HTML body on every
attempt: all 3 attempts run with the backoff waits. -/
lemma makeApiRequest_all_500 (env : Env) (b e : String) (st : ApiState)
    (ct body : String) (d : JsonVal)
    (h : ∀ t a, env.fetch (b ++ e) TIMEOUT_MS t a = .ok ⟨500, ct, body⟩)
    (hct : strContains ct "text/html" = false)
    (hp : parseBody env body = .ok d) :
    makeApiRequest env b e st = ⟨.error "Server internal error", st, 3, [1000, 2000]⟩ := by
  simp [makeApiRequest, makeApiRequestAux, oneAttempt, h, hct, hp, MAX_RETRIES,
    respOk_500, strContains_sie_auth, strContains_sie_nf]

/-- A host answering 401 with a parseable (or empty) non-HTML body: one
attempt, the stored "user" record deleted, error "Authentication failed". -/
lemma makeApiRequest_401 (env : Env) (b e : String) (st : ApiState)
    (ct body : String) (d : JsonVal)
    (h : ∀ t a, env.fetch (b ++ e) TIMEOUT_MS t a = .ok ⟨401, ct, body⟩)
    (hct : strContains ct "text/html" = false)
    (hp : parseBody env body = .ok d) :
    makeApiRequest env b e st =
      ⟨.error "Authentication failed", ⟨st.apiBaseUrl, st.currentApiIndex, none⟩, 1, []⟩ := by
  simp [makeApiRequest, makeApiRequestAux, oneAttempt, h, hct, hp, MAX_RETRIES,
    respOk_401, strContains_auth_auth]

/-- A host answering 404 with a parseable (or empty) non-HTML body: one
attempt, error "API endpoint not found". -/
lemma makeApiRequest_404 (env : Env) (b e : String) (st : ApiState)
    (ct body : String) (d : JsonVal)
    (h : ∀ t a, env.fetch (b ++ e) TIMEOUT_MS t a = .ok ⟨404, ct, body⟩)
    (hct : strContains ct "text/html" = false)
    (hp : parseBody env body = .ok d) :
    makeApiRequest env b e st = ⟨.error "API endpoint not found", st, 1, []⟩ := by
  simp [makeApiRequest, makeApiRequestAux, oneAttempt, h, hct, hp, MAX_RETRIES,
    respOk_404, strContains_enf_nf]

/-- A host answering a 2xx status with a parseable (or empty) non-HTML
body: one attempt, the parsed data returned, the state untouched. -/
lemma makeApiRequest_ok (env : Env) (b e : String) (st : ApiState)
    (s : Nat) (ct body : String) (d : JsonVal)
    (h : ∀ t a, env.fetch (b ++ e) TIMEOUT_MS t a = .ok ⟨s, ct, body⟩)
    (hok : respOk s = true)
    (hct : strContains ct "text/html" = false)
    (hp : parseBody env body = .ok d) :
    makeApiRequest env b e st = ⟨.ok d, st, 1, []⟩ := by
  simp [makeApiRequest, makeApiRequestAux, oneAttempt, h, hok, hct, hp, MAX_RETRIES]

/-- A host answering with a body that fails to parse as JSON (and whose
wrapped parse message matches neither break substring): all 3 attempts run
with the backoff waits, regardless of the status. -/
lemma makeApiRequest_parse_fail (env : Env) (b e : String) (st : ApiState)
    (s : Nat) (ct body pe : String)
    (h : ∀ t a, env.fetch (b ++ e) TIMEOUT_MS t a = .ok ⟨s, ct, body⟩)
    (hct : strContains ct "text/html" = false)
    (hb : jsTrim body ≠ "")
    (hp : env.parse body = .error pe)
    (hm1 : strContains ("Invalid JSON response: " ++ pe) "Authentication failed" = false)
    (hm2 : strContains ("Invalid JSON response: " ++ pe) "not found" = false) :
    makeApiRequest env b e st = ⟨.error ("Invalid JSON response: " ++ pe), st, 3, [1000, 2000]⟩ := by
  simp [makeApiRequest, makeApiRequestAux, oneAttempt, h, hct, hb, hp, MAX_RETRIES,
    parseBody, hm1, hm2]

/-- A host answering with an HTML content-type on every attempt (and a
base URL whose HTML error message matches neither break substring): all 3
attempts run with the backoff waits. -/
lemma makeApiRequest_html (env : Env) (b e : String) (st : ApiState) (r : Resp)
    (h : ∀ t a, env.fetch (b ++ e) TIMEOUT_MS t a = .ok r)
    (hct : strContains r.contentType "text/html" = true)
    (hm1 : strContains (htmlErrorMsg b) "Authentication failed" = false)
    (hm2 : strContains (htmlErrorMsg b) "not found" = false) :
    makeApiRequest env b e st = ⟨.error (htmlErrorMsg b), st, 3, [1000, 2000]⟩ := by
  simp [makeApiRequest, makeApiRequestAux, oneAttempt, h, hct, MAX_RETRIES, hm1, hm2]

/-- A host answering a non-2xx status other than 401/404/500 whose body
carries a truthy `message` field containing "not found": one attempt, that
message surfaced. -/
lemma makeApiRequest_other_notfound (env : Env) (b e : String) (st : ApiState)
    (s : Nat) (ct body msg : String) (d : JsonVal)
    (h : ∀ t a, env.fetch (b ++ e) TIMEOUT_MS t a = .ok ⟨s, ct, body⟩)
    (hok : respOk s = false)
    (h401 : (s == 401) = false) (h404 : (s == 404) = false) (h500 : (s == 500) = false)
    (hct : strContains ct "text/html" = false)
    (hp : parseBody env body = .ok d)
    (hmsg : jsTruthy d.message = some msg)
    (hnf : strContains msg "not found" = true) :
    makeApiRequest env b e st = ⟨.error msg, st, 1, []⟩ := by
  simp [makeApiRequest, makeApiRequestAux, oneAttempt, h, hok, h401, h404, h500,
    hct, hp, hmsg, hnf, MAX_RETRIES]

/- State-shape lemmas: the retry loop never touches API_BASE_URL or
currentApiIndex (it can only delete the stored user record). -/

lemma oneAttempt_base_fields (env : Env) (b e : String) (auth : Option String)
    (attempt : Nat) (st : ApiState) :
    ((oneAttempt env b e auth attempt st).2).apiBaseUrl = st.apiBaseUrl ∧
    ((oneAttempt env b e auth attempt st).2).currentApiIndex = st.currentApiIndex := by
  unfold oneAttempt
  rcases env.fetch (b ++ e) TIMEOUT_MS auth attempt with m | r
  · simp
  · dsimp only
    split
    · simp
    · rcases parseBody env r.body with m | d
      · simp
      · dsimp only
        split_ifs <;> simp

lemma makeApiRequestAux_base_fields (env : Env) (b e : String) (auth : Option String) :
    ∀ (fuel attempt : Nat) (le : Option String) (st : ApiState),
      ((makeApiRequestAux env b e auth fuel attempt le st).state).apiBaseUrl = st.apiBaseUrl ∧
      ((makeApiRequestAux env b e auth fuel attempt le st).state).currentApiIndex = st.currentApiIndex := by
  intro fuel
  induction fuel with
  | zero => intro attempt le st; simp [makeApiRequestAux]
  | succ n ih =>
    intro attempt le st
    have hs := oneAttempt_base_fields env b e auth attempt st
    simp only [makeApiRequestAux]
    rcases hres : (oneAttempt env b e auth attempt st).1 with m | d
    · simp only [hres]
      split
      · exact hs
      · have hrec := ih (attempt + 1) (some m) (oneAttempt env b e auth attempt st).2
        simp [hrec.1, hrec.2, hs.1, hs.2]
    · simp [hres, hs.1, hs.2]

lemma makeApiRequest_base_fields (env : Env) (b e : String) (st : ApiState) :
    ((makeApiRequest env b e st).state).apiBaseUrl = st.apiBaseUrl ∧
    ((makeApiRequest env b e st).state).currentApiIndex = st.currentApiIndex :=
  makeApiRequestAux_base_fields env b e _ MAX_RETRIES 1 none st

/-- A present element has an indexOf within the array bounds. -/
lemma jsIndexOfAux_bounds (s : String) :
    ∀ l : List String, s ∈ l → 0 ≤ jsIndexOfAux s l ∧ jsIndexOfAux s l < l.length := by
  intro l
  induction l with
  | nil => intro h; cases h
  | cons x xs ih =>
    intro hmem
    by_cases hx : x == s
    · simp [jsIndexOfAux, hx]
    · have hsx : s ∈ xs := by
        rcases List.mem_cons.mp hmem with h | h
        · exact absurd (beq_iff_eq.mpr h.symm) (by simpa using hx)
        · exact h
      have hb := ih hsx
      have hne : (jsIndexOfAux s xs == (-1 : Int)) = false := by
        have : jsIndexOfAux s xs ≠ -1 := by omega
        simpa using this
      simp [jsIndexOfAux, hx, hne]
      omega

/-- The invariant only reads currentApiIndex, so it transports along
index-preserving state changes. -/
lemma stateInv_congr (st st' : ApiState)
    (h : st'.currentApiIndex = st.currentApiIndex) (hinv : stateInv st) : stateInv st' := by
  unfold stateInv at *
  rw [h]
  exact hinv

lemma fallbackLoop_inv (env : Env) (e skip lm : String) :
    ∀ (l : List String) (au : List String) (acc : List HostTry) (st : ApiState),
      (∀ d ∈ l, d ∈ DEVELOPMENT_API_URLS) → stateInv st →
      stateInv (fallbackLoop env e skip lm au acc st l).state := by
  intro l
  induction l with
  | nil =>
    intro au acc st _ hinv
    simpa [fallbackLoop] using hinv
  | cons devUrl rest ih =>
    intro au acc st hsub hinv
    by_cases hskip : (devUrl == skip) = true
    · simp only [fallbackLoop, hskip, if_true]
      exact ih au acc st (fun d hd => hsub d (List.mem_cons_of_mem _ hd)) hinv
    · rw [Bool.not_eq_true] at hskip
      simp only [fallbackLoop, hskip, Bool.false_eq_true, if_false]
      rcases hres : (makeApiRequest env devUrl e st).result with m | d
      · simp only [hres]
        refine ih _ _ _ (fun d hd => hsub d (List.mem_cons_of_mem _ hd)) ?_
        exact stateInv_congr st _ (makeApiRequest_base_fields env devUrl e st).2 hinv
      · simp only [hres]
        refine ⟨by decide, ?_, ?_⟩
        · exact (jsIndexOfAux_bounds devUrl DEVELOPMENT_API_URLS (hsub devUrl (List.mem_cons_self _ _))).1
        · exact (jsIndexOfAux_bounds devUrl DEVELOPMENT_API_URLS (hsub devUrl (List.mem_cons_self _ _))).2

lemma apiCall_inv (env : Env) (e : String) (st : ApiState) (hinv : stateInv st) :
    stateInv (apiCall env e st).state := by
  unfold apiCall
  rcases hres : (makeApiRequest env st.apiBaseUrl e st).result with m | d
  · simp only [hres]
    refine fallbackLoop_inv env e _ _ _ _ _ _ (fun d hd => hd) ?_
    exact stateInv_congr st _ (makeApiRequest_base_fields env st.apiBaseUrl e st).2 hinv
  · simp only [hres]
    exact stateInv_congr st _ (makeApiRequest_base_fields env st.apiBaseUrl e st).2 hinv

lemma testMultipleIPsAux_inv (env : Env) (st : ApiState) :
    ∀ pairs : List (Nat × String),
      (∀ p ∈ pairs, p.1 < DEVELOPMENT_API_URLS.length) → stateInv st →
      stateInv (testMultipleIPsAux env st pairs).2 := by
  intro pairs
  induction pairs with
  | nil => intro _ hinv; simpa [testMultipleIPsAux] using hinv
  | cons p rest ih =>
    intro hb hinv
    obtain ⟨i, u⟩ := p
    simp only [testMultipleIPsAux]
    rcases env.fetch (u ++ "/debug/test") 3000 none 1 with m | r
    · exact ih (fun q hq => hb q (List.mem_cons_of_mem _ hq)) hinv
    · dsimp only
      split
      · have hi := hb (i, u) (List.mem_cons_self _ _)
        simp only at hi
        refine ⟨by decide, ?_, ?_⟩ <;> (simp; try omega)
      · exact ih (fun q hq => hb q (List.mem_cons_of_mem _ hq)) hinv

lemma testMultipleIPs_inv (env : Env) (st : ApiState) (hinv : stateInv st) :
    stateInv (testMultipleIPs env st).2 := by
  unfold testMultipleIPs
  refine testMultipleIPsAux_inv env st _ ?_ hinv
  decide

lemma switchToNextApiUrl_inv (st : ApiState) (hinv : stateInv st) :
    stateInv (switchToNextApiUrl st).2 := by
  unfold switchToNextApiUrl
  obtain ⟨-, h0, h1⟩ := hinv
  split
  · refine ⟨by decide, ?_, ?_⟩ <;> (simp; try omega)
  · exact ⟨by decide, h0, h1⟩

lemma fallbackLoop_trace_head (env : Env) (e skip lm : String) :
    ∀ (l : List String) (au : List String) (acc : List HostTry) (st : ApiState),
      acc ≠ [] →
      ((fallbackLoop env e skip lm au acc st l).trace).head? = acc.head? := by
  intro l
  induction l with
  | nil => intro au acc st _; simp [fallbackLoop]
  | cons devUrl rest ih =>
    intro au acc st hacc
    by_cases hskip : (devUrl == skip) = true
    · simp only [fallbackLoop, hskip, if_true]
      exact ih au acc st hacc
    · rw [Bool.not_eq_true] at hskip
      simp only [fallbackLoop, hskip, Bool.false_eq_true, if_false]
      rcases hres : (makeApiRequest env devUrl e st).result with m | d
      · simp only [hres]
        rw [ih _ _ _ (by simp)]
        cases acc with
        | nil => exact absurd rfl hacc
        | cons a as => simp
      · simp only [hres]
        cases acc with
        | nil => exact absurd rfl hacc
        | cons a as => simp

lemma apiCall_trace_head (env : Env) (e : String) (st : ApiState) :
    ((apiCall env e st).trace.head?).map (fun ht => ht.url) = some st.apiBaseUrl := by
  unfold apiCall
  rcases hres : (makeApiRequest env st.apiBaseUrl e st).result with m | d
  · simp only [hres]
    rw [fallbackLoop_trace_head env e _ _ _ _ _ _ (by simp)]
    simp
  · simp [hres]

/- Concrete fixtures used by witnesses and counterexamples. -/

def stStart : ApiState := ⟨"http://192.168.100.46:3000/api", 0, some "user-record"⟩

instance decidableStateInv (st : ApiState) : Decidable (stateInv st) := by
  unfold stateInv
  infer_instance

/-- A small concrete JSON parser for witnesses: "good" parses to a payload
object, "nf" to an object whose message contains "not found", anything
else fails like JSON.parse on garbage. -/
def testParse : String → Except String JsonVal := fun s =>
  if s = "good" then .ok ⟨none, none, "payload"⟩
  else if s = "nf" then .ok ⟨some "item not found", none, ""⟩
  else .error "Unexpected token"

def mkEnv (f : String → Nat → Option String → Nat → FetchOutcome) : Env :=
  ⟨f, testParse, fun _ => .error "Unexpected token"⟩

def envNet : Env := mkEnv fun _ _ _ _ => .err "Network request failed"

def env500 : Env := mkEnv fun _ _ _ _ => .ok ⟨500, "application/json", ""⟩

/-- Claim C6: against a host answering 500 on every attempt, the retry
sub-procedure makes exactly 3 attempts, waiting 1000ms after the first and
2000ms after the second, before the host is abandoned with the error
"Server internal error". -/
theorem claim_C6_retry_budget (env : Env) (b e : String) (st : ApiState)
    (ct body : String) (d : JsonVal)
    (h : ∀ t a, env.fetch (b ++ e) TIMEOUT_MS t a = .ok ⟨500, ct, body⟩)
    (hct : strContains ct "text/html" = false)
    (hp : parseBody env body = .ok d) :
    (makeApiRequest env b e st).attempts = 3 ∧
    (makeApiRequest env b e st).waits = [1000, 2000] ∧
    (makeApiRequest env b e st).result = .error "Server internal error" := by
  have hrun := makeApiRequest_all_500 env b e st ct body d h hct hp
  simp [hrun]

/-- Witness for C6 at a concrete always-500 host. -/
theorem claim_C6_witness :
    (makeApiRequest env500 "http://192.168.100.46:3000/api" "/e" stStart).attempts = 3 ∧
    (makeApiRequest env500 "http://192.168.100.46:3000/api" "/e" stStart).waits = [1000, 2000] ∧
    (makeApiRequest env500 "http://192.168.100.46:3000/api" "/e" stStart).result = .error "Server internal error" :=
  claim_C6_retry_budget env500 "http://192.168.100.46:3000/api" "/e" stStart
    "application/json" "" emptyJson (fun _ _ => rfl) (by decide) rfl

/-- Claim C7: the host list is never empty and currentApiIndex stays in
bounds across the host-discovery probe, apiCall (including a successful
fallback) and switchToNextApiUrl. -/
theorem claim_C7_state_invariant :
    (∀ (env : Env) (st : ApiState), stateInv st → stateInv (testMultipleIPs env st).2) ∧
    (∀ (env : Env) (e : String) (st : ApiState), stateInv st → stateInv (apiCall env e st).state) ∧
    (∀ st : ApiState, stateInv st → stateInv (switchToNextApiUrl st).2) :=
  ⟨testMultipleIPs_inv, apiCall_inv, switchToNextApiUrl_inv⟩

/-- Witness for C7 at the startup state and a concrete environment. -/
theorem claim_C7_witness :
    stateInv stStart ∧ stateInv (testMultipleIPs envNet stStart).2 ∧
    stateInv (apiCall envNet "/e" stStart).state ∧
    stateInv (switchToNextApiUrl stStart).2 := by
  have h : stateInv stStart := by decide
  exact ⟨h, claim_C7_state_invariant.1 envNet stStart h,
    claim_C7_state_invariant.2.1 envNet "/e" stStart h,
    claim_C7_state_invariant.2.2 stStart h⟩

def envU0failU1ok : Env := mkEnv fun url _ _ _ =>
  if url == "http://192.168.100.46:3000/api/e" then .err "Network request failed"
  else .ok ⟨200, "application/json", "good"⟩

def envU01failU2ok : Env := mkEnv fun url _ _ _ =>
  if url == "http://localhost:3000/api/e" then .ok ⟨200, "application/json", "good"⟩
  else .err "Network request failed"

/-- Claim C8: when the current host fails and a later configured host
succeeds during fallback, the process-wide pointer (API_BASE_URL and
currentApiIndex) is promoted to that host, and every apiCall tries the
current pointer first. -/
theorem claim_C8_fallback_promotion :
    (∀ (env : Env) (e : String) (st : ApiState) (m : String) (d : JsonVal),
      st.apiBaseUrl = "http://192.168.100.46:3000/api" →
      (makeApiRequest env "http://192.168.100.46:3000/api" e st).result = .error m →
      (∀ st' : ApiState, (makeApiRequest env "http://192.168.100.1:3000/api" e st').result = .ok d) →
      (apiCall env e st).result = .ok d ∧
      (apiCall env e st).state.apiBaseUrl = "http://192.168.100.1:3000/api" ∧
      (apiCall env e st).state.currentApiIndex = 1) ∧
    (∀ (env : Env) (e : String) (st : ApiState) (m : String) (d : JsonVal),
      st.apiBaseUrl = "http://192.168.100.46:3000/api" →
      (makeApiRequest env "http://192.168.100.46:3000/api" e st).result = .error m →
      (∀ st' : ApiState, ∃ m1, (makeApiRequest env "http://192.168.100.1:3000/api" e st').result = .error m1) →
      (∀ st' : ApiState, (makeApiRequest env "http://localhost:3000/api" e st').result = .ok d) →
      (apiCall env e st).result = .ok d ∧
      (apiCall env e st).state.apiBaseUrl = "http://localhost:3000/api" ∧
      (apiCall env e st).state.currentApiIndex = 2) ∧
    (∀ (env : Env) (e : String) (st : ApiState),
      ((apiCall env e st).trace.head?).map (fun ht => ht.url) = some st.apiBaseUrl) := by
  refine ⟨?_, ?_, apiCall_trace_head⟩
  · intro env e st m d hbase h0 h1
    simp +decide [apiCall, fallbackLoop, DEVELOPMENT_API_URLS, hbase, h0, h1,
      jsIndexOf, jsIndexOfAux]
  · intro env e st m d hbase h0 h1 h2
    obtain ⟨m1, hm1⟩ := h1 (makeApiRequest env "http://192.168.100.46:3000/api" e st).state
    simp +decide [apiCall, fallbackLoop, DEVELOPMENT_API_URLS, hbase, h0, hm1, h2,
      jsIndexOf, jsIndexOfAux]

/-- Witness for C8: concrete environments where the first host fails and
the second (resp. third) host succeeds. -/
theorem claim_C8_witness :
    ((apiCall envU0failU1ok "/e" stStart).result = .ok ⟨none, none, "payload"⟩ ∧
     (apiCall envU0failU1ok "/e" stStart).state.apiBaseUrl = "http://192.168.100.1:3000/api" ∧
     (apiCall envU0failU1ok "/e" stStart).state.currentApiIndex = 1) ∧
    ((apiCall envU01failU2ok "/e" stStart).result = .ok ⟨none, none, "payload"⟩ ∧
     (apiCall envU01failU2ok "/e" stStart).state.apiBaseUrl = "http://localhost:3000/api" ∧
     (apiCall envU01failU2ok "/e" stStart).state.currentApiIndex = 2) ∧
    ((apiCall envNet "/e" stStart).trace.head?).map (fun ht => ht.url) =
      some stStart.apiBaseUrl := by
  refine ⟨?_, ?_, claim_C8_fallback_promotion.2.2 envNet "/e" stStart⟩
  · exact claim_C8_fallback_promotion.1 envU0failU1ok "/e" stStart "Network request failed"
      ⟨none, none, "payload"⟩ rfl
      (by exact congrArg RunOut.result (makeApiRequest_all_reject envU0failU1ok "http://192.168.100.46:3000/api" "/e" stStart
        "Network request failed" (fun _ _ => rfl) (by decide) (by decide)))
      (fun st' => by exact congrArg RunOut.result (makeApiRequest_ok envU0failU1ok "http://192.168.100.1:3000/api" "/e" st'
        200 "application/json" "good" ⟨none, none, "payload"⟩ (fun _ _ => rfl) (by decide) (by decide) rfl))
  · exact claim_C8_fallback_promotion.2.1 envU01failU2ok "/e" stStart "Network request failed"
      ⟨none, none, "payload"⟩ rfl
      (by exact congrArg RunOut.result (makeApiRequest_all_reject envU01failU2ok "http://192.168.100.46:3000/api" "/e" stStart
        "Network request failed" (fun _ _ => rfl) (by decide) (by decide)))
      (fun st' => ⟨"Network request failed",
        by exact congrArg RunOut.result (makeApiRequest_all_reject envU01failU2ok "http://192.168.100.1:3000/api" "/e" st'
          "Network request failed" (fun _ _ => rfl) (by decide) (by decide))⟩)
      (fun st' => by exact congrArg RunOut.result (makeApiRequest_ok envU01failU2ok "http://localhost:3000/api" "/e" st'
        200 "application/json" "good" ⟨none, none, "payload"⟩ (fun _ _ => rfl) (by decide) (by decide) rfl))

def env418nf : Env := mkEnv fun _ _ _ _ => .ok ⟨418, "application/json", "nf"⟩

def env500nf : Env := mkEnv fun _ _ _ _ => .ok ⟨500, "application/json", "nf"⟩

/-- Claim C10 (amended): retryability is decided by substring matching on
the thrown message; a non-2xx status outside 401/404/500 whose truthy
server message contains "not found" is non-retryable, while a 500 is
retried even when its body message contains "not found" (its thrown
message is the fixed "Server internal error"). -/
theorem claim_C10_substring_retryability :
    (∀ (env : Env) (b e : String) (st : ApiState) (m : String),
      (∀ t a, env.fetch (b ++ e) TIMEOUT_MS t a = .err m) →
      makeApiRequest env b e st =
        if strContains m "Authentication failed" || strContains m "not found" then
          ⟨.error m, st, 1, []⟩
        else ⟨.error m, st, 3, [1000, 2000]⟩) ∧
    (∀ (env : Env) (b e : String) (st : ApiState) (s : Nat) (ct body msg : String) (d : JsonVal),
      (∀ t a, env.fetch (b ++ e) TIMEOUT_MS t a = .ok ⟨s, ct, body⟩) →
      respOk s = false → (s == 401) = false → (s == 404) = false → (s == 500) = false →
      strContains ct "text/html" = false → parseBody env body = .ok d →
      jsTruthy d.message = some msg → strContains msg "not found" = true →
      makeApiRequest env b e st = ⟨.error msg, st, 1, []⟩) ∧
    (∀ (env : Env) (b e : String) (st : ApiState) (ct body msg : String) (d : JsonVal),
      (∀ t a, env.fetch (b ++ e) TIMEOUT_MS t a = .ok ⟨500, ct, body⟩) →
      strContains ct "text/html" = false → parseBody env body = .ok d →
      jsTruthy d.message = some msg → strContains msg "not found" = true →
      makeApiRequest env b e st = ⟨.error "Server internal error", st, 3, [1000, 2000]⟩) := by
  refine ⟨?_, ?_, ?_⟩
  · intro env b e st m h
    by_cases h1 : strContains m "Authentication failed" = true
    · have hrun := makeApiRequest_reject_break env b e st m h (Or.inl h1)
      simp [hrun, h1]
    · by_cases h2 : strContains m "not found" = true
      · have hrun := makeApiRequest_reject_break env b e st m h (Or.inr h2)
        simp [hrun, h2]
      · rw [Bool.not_eq_true] at h1 h2
        have hrun := makeApiRequest_all_reject env b e st m h h1 h2
        simp [hrun, h1, h2]
  · intro env b e st s ct body msg d h hok h401 h404 h500 hct hp hmsg hnf
    exact makeApiRequest_other_notfound env b e st s ct body msg d h hok h401 h404 h500 hct hp hmsg hnf
  · intro env b e st ct body msg d h hct hp _ _
    exact makeApiRequest_all_500 env b e st ct body d h hct hp

/-- Counterexample for C10 as stated: a 500 whose server-supplied message
field contains "not found" is still retried 3 times, so "non-retryable
regardless of its status code" fails. -/
theorem claim_C10_counterexample :
    env500nf.parse "nf" = .ok ⟨some "item not found", none, ""⟩ ∧
    strContains "item not found" "not found" = true ∧
    (makeApiRequest env500nf "http://192.168.100.46:3000/api" "/e" stStart).attempts = 3 ∧
    (makeApiRequest env500nf "http://192.168.100.46:3000/api" "/e" stStart).attempts ≠ 1 :=
  ⟨rfl, by decide, rfl, by decide⟩

/-- Witness for C10 at concrete hosts: a network-failing host, a 418 with
a "not found" message, and a 500 with a "not found" message. -/
theorem claim_C10_witness :
    (makeApiRequest envNet "http://192.168.100.46:3000/api" "/e" stStart =
      if strContains "Network request failed" "Authentication failed"
          || strContains "Network request failed" "not found" then
        ⟨.error "Network request failed", stStart, 1, []⟩
      else ⟨.error "Network request failed", stStart, 3, [1000, 2000]⟩) ∧
    (makeApiRequest env418nf "http://192.168.100.46:3000/api" "/e" stStart =
      ⟨.error "item not found", stStart, 1, []⟩) ∧
    (makeApiRequest env500nf "http://192.168.100.46:3000/api" "/e" stStart =
      ⟨.error "Server internal error", stStart, 3, [1000, 2000]⟩) :=
  ⟨claim_C10_substring_retryability.1 envNet "http://192.168.100.46:3000/api" "/e" stStart
      "Network request failed" (fun _ _ => rfl),
   claim_C10_substring_retryability.2.1 env418nf "http://192.168.100.46:3000/api" "/e" stStart
      418 "application/json" "nf" "item not found" ⟨some "item not found", none, ""⟩
      (fun _ _ => rfl) (by decide) (by decide) (by decide) (by decide) (by decide) rfl rfl (by decide),
   claim_C10_substring_retryability.2.2 env500nf "http://192.168.100.46:3000/api" "/e" stStart
      "application/json" "nf" "item not found" ⟨some "item not found", none, ""⟩
      (fun _ _ => rfl) (by decide) rfl rfl (by decide)⟩

/-- Claim C1 (amended): on failure of the current host, apiCall iterates
the remaining configured hosts in fixed order, running the retry
sub-procedure exactly once per alternate host — and that sub-procedure
makes up to MAX_RETRIES (here all 3) HTTP attempts per alternate host,
not exactly one. -/
theorem claim_C1_fallback_iteration (env : Env) (e : String) (st : ApiState) (m : String)
    (hbase : st.apiBaseUrl = "http://192.168.100.46:3000/api")
    (h : ∀ u t a, env.fetch (u ++ e) TIMEOUT_MS t a = .err m)
    (hm1 : strContains m "Authentication failed" = false)
    (hm2 : strContains m "not found" = false) :
    (apiCall env e st).trace.map (fun ht => (ht.url, ht.attempts)) =
      [("http://192.168.100.46:3000/api", 3), ("http://192.168.100.1:3000/api", 3),
       ("http://localhost:3000/api", 3)] := by
  have h0 := makeApiRequest_all_reject env "http://192.168.100.46:3000/api" e st m (h _) hm1 hm2
  have h1 := makeApiRequest_all_reject env "http://192.168.100.1:3000/api" e st m (h _) hm1 hm2
  have h2 := makeApiRequest_all_reject env "http://localhost:3000/api" e st m (h _) hm1 hm2
  simp +decide [apiCall, fallbackLoop, DEVELOPMENT_API_URLS, hbase, h0, h1, h2]

/-- Counterexample for C1 as stated: with every host rejecting on a
network error, each alternate host receives 3 HTTP attempts, not exactly
one. -/
theorem claim_C1_counterexample :
    (apiCall envNet "/e" stStart).trace.map (fun ht => (ht.url, ht.attempts)) =
      [("http://192.168.100.46:3000/api", 3), ("http://192.168.100.1:3000/api", 3),
       ("http://localhost:3000/api", 3)] ∧
    (∀ ht ∈ (apiCall envNet "/e" stStart).trace.tail, ht.attempts ≠ 1) := by
  constructor
  · rfl
  · decide

/-- Witness for C1 at the concrete all-rejecting environment. -/
theorem claim_C1_witness :
    (apiCall envNet "/e" stStart).trace.map (fun ht => (ht.url, ht.attempts)) =
      [("http://192.168.100.46:3000/api", 3), ("http://192.168.100.1:3000/api", 3),
       ("http://localhost:3000/api", 3)] :=
  claim_C1_fallback_iteration envNet "/e" stStart "Network request failed" rfl
    (fun _ _ _ => rfl) (by decide) (by decide)

def env401 : Env := mkEnv fun _ _ _ _ => .ok ⟨401, "application/json", ""⟩

def env401then200 : Env := mkEnv fun url _ _ _ =>
  if url == "http://192.168.100.46:3000/api/e" then .ok ⟨401, "application/json", ""⟩
  else .ok ⟨200, "application/json", "good"⟩

/-- Claim C2 (amended): a 401 deletes the stored "user" record and stops
the retry loop for that host, but apiCall still runs the retry
sub-procedure against the remaining fallback hosts: if every host answers
401 the call fails with the aggregate error naming the authentication
failure, and if a fallback host succeeds the call returns its data even
though the record was deleted. -/
theorem claim_C2_auth_behaviour :
    (∀ (env : Env) (e : String) (st : ApiState) (ct body : String) (d : JsonVal),
      st.apiBaseUrl = "http://192.168.100.46:3000/api" →
      (∀ u t a, env.fetch (u ++ e) TIMEOUT_MS t a = .ok ⟨401, ct, body⟩) →
      strContains ct "text/html" = false →
      parseBody env body = .ok d →
      (apiCall env e st).state.userData = none ∧
      (apiCall env e st).trace.map (fun ht => (ht.url, ht.attempts)) =
        [("http://192.168.100.46:3000/api", 1), ("http://192.168.100.1:3000/api", 1),
         ("http://localhost:3000/api", 1)] ∧
      (apiCall env e st).result = .error "API call failed: Authentication failed. Tried 3 endpoints.") ∧
    (∀ (env : Env) (e : String) (st : ApiState) (ct0 body0 : String) (d0 : JsonVal)
        (s : Nat) (ct1 body1 : String) (d1 : JsonVal),
      st.apiBaseUrl = "http://192.168.100.46:3000/api" →
      (∀ t a, env.fetch ("http://192.168.100.46:3000/api" ++ e) TIMEOUT_MS t a = .ok ⟨401, ct0, body0⟩) →
      strContains ct0 "text/html" = false →
      parseBody env body0 = .ok d0 →
      (∀ t a, env.fetch ("http://192.168.100.1:3000/api" ++ e) TIMEOUT_MS t a = .ok ⟨s, ct1, body1⟩) →
      respOk s = true →
      strContains ct1 "text/html" = false →
      parseBody env body1 = .ok d1 →
      (apiCall env e st).result = .ok d1 ∧
      (apiCall env e st).state.userData = none ∧
      (apiCall env e st).state.apiBaseUrl = "http://192.168.100.1:3000/api" ∧
      (apiCall env e st).trace.map (fun ht => (ht.url, ht.attempts)) =
        [("http://192.168.100.46:3000/api", 1), ("http://192.168.100.1:3000/api", 1)]) := by
  constructor
  · intro env e st ct body d hbase h hct hp
    have h401 : ∀ (b : String) (stx : ApiState),
        makeApiRequest env b e stx =
          ⟨.error "Authentication failed", ⟨stx.apiBaseUrl, stx.currentApiIndex, none⟩, 1, []⟩ :=
      fun b stx => makeApiRequest_401 env b e stx ct body d (h b) hct hp
    simp +decide [apiCall, fallbackLoop, DEVELOPMENT_API_URLS, hbase, h401]
  · intro env e st ct0 body0 d0 s ct1 body1 d1 hbase h0 hct0 hp0 h1 hok hct1 hp1
    have ha : ∀ stx : ApiState,
        makeApiRequest env "http://192.168.100.46:3000/api" e stx =
          ⟨.error "Authentication failed", ⟨stx.apiBaseUrl, stx.currentApiIndex, none⟩, 1, []⟩ :=
      fun stx => makeApiRequest_401 env _ e stx ct0 body0 d0 h0 hct0 hp0
    have hb : ∀ stx : ApiState,
        makeApiRequest env "http://192.168.100.1:3000/api" e stx = ⟨.ok d1, stx, 1, []⟩ :=
      fun stx => makeApiRequest_ok env _ e stx s ct1 body1 d1 h1 hok hct1 hp1
    simp +decide [apiCall, fallbackLoop, DEVELOPMENT_API_URLS, hbase, ha, hb,
      jsIndexOf, jsIndexOfAux]

/-- Counterexample for C2 as stated: the first host answers 401 (the
stored record is deleted), yet the call does not abort the host
fallbacks — the second host is tried and the call succeeds. -/
theorem claim_C2_counterexample :
    env401then200.fetch ("http://192.168.100.46:3000/api" ++ "/e") TIMEOUT_MS none 1 =
      .ok ⟨401, "application/json", ""⟩ ∧
    (apiCall env401then200 "/e" stStart).result = .ok ⟨none, none, "payload"⟩ ∧
    (apiCall env401then200 "/e" stStart).state.userData = none ∧
    (apiCall env401then200 "/e" stStart).trace.length = 2 :=
  ⟨rfl, rfl, rfl, rfl⟩

/-- Witness for C2 at the concrete all-401 and 401-then-200 hosts. -/
theorem claim_C2_witness :
    ((apiCall env401 "/e" stStart).state.userData = none ∧
     (apiCall env401 "/e" stStart).trace.map (fun ht => (ht.url, ht.attempts)) =
       [("http://192.168.100.46:3000/api", 1), ("http://192.168.100.1:3000/api", 1),
        ("http://localhost:3000/api", 1)] ∧
     (apiCall env401 "/e" stStart).result =
       .error "API call failed: Authentication failed. Tried 3 endpoints.") ∧
    ((apiCall env401then200 "/e" stStart).result = .ok ⟨none, none, "payload"⟩ ∧
     (apiCall env401then200 "/e" stStart).state.userData = none ∧
     (apiCall env401then200 "/e" stStart).state.apiBaseUrl = "http://192.168.100.1:3000/api" ∧
     (apiCall env401then200 "/e" stStart).trace.map (fun ht => (ht.url, ht.attempts)) =
       [("http://192.168.100.46:3000/api", 1), ("http://192.168.100.1:3000/api", 1)]) :=
  ⟨claim_C2_auth_behaviour.1 env401 "/e" stStart "application/json" "" emptyJson rfl
      (fun _ _ _ => rfl) (by decide) rfl,
   claim_C2_auth_behaviour.2 env401then200 "/e" stStart "application/json" "" emptyJson
      200 "application/json" "good" ⟨none, none, "payload"⟩ rfl
      (fun _ _ => rfl) (by decide) rfl (fun _ _ => rfl) (by decide) (by decide) rfl⟩

def envBadJson : Env := mkEnv fun _ _ _ _ => .ok ⟨200, "application/json", "zzz"⟩

def envJsonMix : Env := mkEnv fun url _ _ _ =>
  if url == "bad/e" then .ok ⟨200, "application/json", "zzz"⟩
  else .ok ⟨200, "application/json", ""⟩

/-- Claim C3 (amended): a response body that fails to parse as JSON is a
retryable failure — the loop runs all 3 attempts with backoff (its thrown
"Invalid JSON response: …" message matches no break substring here) —
while an empty (after trimming) body is treated as an empty object and
returned as a success, not a parse failure. -/
theorem claim_C3_parse_failure (env : Env) (e : String) (st : ApiState)
    (b1 b2 ct1 body1 pe ct2 body2 : String)
    (h1 : ∀ t a, env.fetch (b1 ++ e) TIMEOUT_MS t a = .ok ⟨200, ct1, body1⟩)
    (hct1 : strContains ct1 "text/html" = false)
    (hb1 : jsTrim body1 ≠ "")
    (hp1 : env.parse body1 = .error pe)
    (hm1 : strContains ("Invalid JSON response: " ++ pe) "Authentication failed" = false)
    (hm2 : strContains ("Invalid JSON response: " ++ pe) "not found" = false)
    (h2 : ∀ t a, env.fetch (b2 ++ e) TIMEOUT_MS t a = .ok ⟨200, ct2, body2⟩)
    (hct2 : strContains ct2 "text/html" = false)
    (hb2 : jsTrim body2 = "") :
    makeApiRequest env b1 e st = ⟨.error ("Invalid JSON response: " ++ pe), st, 3, [1000, 2000]⟩ ∧
    makeApiRequest env b2 e st = ⟨.ok emptyJson, st, 1, []⟩ := by
  constructor
  · exact makeApiRequest_parse_fail env b1 e st 200 ct1 body1 pe h1 hct1 hb1 hp1 hm1 hm2
  · exact makeApiRequest_ok env b2 e st 200 ct2 body2 emptyJson h2 (by decide) hct2
      (by simp [parseBody, hb2])

/-- Counterexample for C3 as stated: a host whose body never parses is
retried 3 times, not abandoned after the first parse failure. -/
theorem claim_C3_counterexample :
    (makeApiRequest envBadJson "http://192.168.100.46:3000/api" "/e" stStart).result =
      .error "Invalid JSON response: Unexpected token" ∧
    (makeApiRequest envBadJson "http://192.168.100.46:3000/api" "/e" stStart).attempts = 3 ∧
    (makeApiRequest envBadJson "http://192.168.100.46:3000/api" "/e" stStart).attempts ≠ 1 :=
  ⟨rfl, rfl, by decide⟩

/-- Witness for C3 at a concrete environment with one garbage-body host
and one empty-body host. -/
theorem claim_C3_witness :
    makeApiRequest envJsonMix "bad" "/e" stStart =
      ⟨.error ("Invalid JSON response: " ++ "Unexpected token"), stStart, 3, [1000, 2000]⟩ ∧
    makeApiRequest envJsonMix "empt" "/e" stStart = ⟨.ok emptyJson, stStart, 1, []⟩ :=
  claim_C3_parse_failure envJsonMix "/e" stStart "bad" "empt" "application/json" "zzz"
    "Unexpected token" "application/json" "" (fun _ _ => rfl) (by decide) (by decide) rfl
    (by decide) (by decide) (fun _ _ => rfl) (by decide) (by decide)

def envHtml : Env := mkEnv fun _ _ _ _ => .ok ⟨200, "text/html; charset=utf-8", "<html>"⟩

/-- Claim C4 (amended): a response whose content-type indicates HTML is a
failure thrown before the body is read, but it is retryable — all 3
attempts run with backoff (its message matches no break substring when the
base URL contains none). -/
theorem claim_C4_html_response (env : Env) (b e : String) (st : ApiState) (r : Resp)
    (h : ∀ t a, env.fetch (b ++ e) TIMEOUT_MS t a = .ok r)
    (hct : strContains r.contentType "text/html" = true)
    (hm1 : strContains (htmlErrorMsg b) "Authentication failed" = false)
    (hm2 : strContains (htmlErrorMsg b) "not found" = false) :
    makeApiRequest env b e st = ⟨.error (htmlErrorMsg b), st, 3, [1000, 2000]⟩ :=
  makeApiRequest_html env b e st r h hct hm1 hm2

/-- Counterexample for C4 as stated: a host answering with an HTML
content-type is retried 3 times, not abandoned after the first response. -/
theorem claim_C4_counterexample :
    (makeApiRequest envHtml "http://192.168.100.46:3000/api" "/e" stStart).result =
      .error (htmlErrorMsg "http://192.168.100.46:3000/api") ∧
    (makeApiRequest envHtml "http://192.168.100.46:3000/api" "/e" stStart).attempts = 3 ∧
    (makeApiRequest envHtml "http://192.168.100.46:3000/api" "/e" stStart).attempts ≠ 1 :=
  ⟨rfl, rfl, by decide⟩

/-- Witness for C4 at a concrete always-HTML host. -/
theorem claim_C4_witness :
    makeApiRequest envHtml "http://192.168.100.46:3000/api" "/e" stStart =
      ⟨.error (htmlErrorMsg "http://192.168.100.46:3000/api"), stStart, 3, [1000, 2000]⟩ :=
  claim_C4_html_response envHtml "http://192.168.100.46:3000/api" "/e" stStart
    ⟨200, "text/html; charset=utf-8", "<html>"⟩ (fun _ _ => rfl) (by decide) (by decide) (by decide)

def env500then404 : Env := mkEnv fun url _ _ _ =>
  if url == "http://192.168.100.46:3000/api/e" then .ok ⟨500, "application/json", ""⟩
  else .ok ⟨404, "application/json", ""⟩

def envC5 : Env := mkEnv fun url _ _ _ =>
  if url == "http://192.168.100.46:3000/api/e" then .err "Network request failed"
  else .ok ⟨404, "application/json", ""⟩

/-- Claim C5 (amended): when every host fails, apiCall throws the
aggregate error naming the number of endpoints tried and the message of
the error recorded for the initially-current host (the only error apiCall
saves), not the message of the last underlying error. -/
theorem claim_C5_aggregate_error (env : Env) (e : String) (st : ApiState)
    (m ct body : String) (d : JsonVal)
    (hbase : st.apiBaseUrl = "http://192.168.100.46:3000/api")
    (h0 : ∀ t a, env.fetch ("http://192.168.100.46:3000/api" ++ e) TIMEOUT_MS t a = .err m)
    (hm1 : strContains m "Authentication failed" = false)
    (hm2 : strContains m "not found" = false)
    (h1 : ∀ t a, env.fetch ("http://192.168.100.1:3000/api" ++ e) TIMEOUT_MS t a = .ok ⟨404, ct, body⟩)
    (h2 : ∀ t a, env.fetch ("http://localhost:3000/api" ++ e) TIMEOUT_MS t a = .ok ⟨404, ct, body⟩)
    (hct : strContains ct "text/html" = false)
    (hp : parseBody env body = .ok d) :
    (apiCall env e st).result =
      .error ("API call failed: " ++ m ++ ". Tried " ++ toString (3 : Nat) ++ " endpoints.") ∧
    (apiCall env e st).trace.map (fun ht => ht.res) =
      [.error m, .error "API endpoint not found", .error "API endpoint not found"] := by
  have h0' := makeApiRequest_all_reject env "http://192.168.100.46:3000/api" e st m h0 hm1 hm2
  have hu1 : ∀ stx : ApiState,
      makeApiRequest env "http://192.168.100.1:3000/api" e stx =
        ⟨.error "API endpoint not found", stx, 1, []⟩ :=
    fun stx => makeApiRequest_404 env _ e stx ct body d h1 hct hp
  have hu2 : ∀ stx : ApiState,
      makeApiRequest env "http://localhost:3000/api" e stx =
        ⟨.error "API endpoint not found", stx, 1, []⟩ :=
    fun stx => makeApiRequest_404 env _ e stx ct body d h2 hct hp
  simp +decide [apiCall, fallbackLoop, DEVELOPMENT_API_URLS, hbase, h0', hu1, hu2]

/-- Counterexample for C5 as stated: the first host fails with "Server
internal error" and the later hosts with "API endpoint not found"; the
aggregate message names the first message, and does not contain the last
underlying error message. -/
theorem claim_C5_counterexample :
    (apiCall env500then404 "/e" stStart).result =
      .error "API call failed: Server internal error. Tried 3 endpoints." ∧
    ((apiCall env500then404 "/e" stStart).trace.getLast?).map (fun ht => ht.res) =
      some (.error "API endpoint not found") ∧
    strContains "API call failed: Server internal error. Tried 3 endpoints."
      "API endpoint not found" = false :=
  ⟨rfl, rfl, by decide⟩

/-- Witness for C5 at a concrete environment: first host network-fails,
the others answer 404. -/
theorem claim_C5_witness :
    (apiCall envC5 "/e" stStart).result =
      .error ("API call failed: " ++ "Network request failed" ++ ". Tried "
        ++ toString (3 : Nat) ++ " endpoints.") ∧
    (apiCall envC5 "/e" stStart).trace.map (fun ht => ht.res) =
      [.error "Network request failed", .error "API endpoint not found",
       .error "API endpoint not found"] :=
  claim_C5_aggregate_error envC5 "/e" stStart "Network request failed" "application/json" ""
    emptyJson rfl (fun _ _ => rfl) (by decide) (by decide) (fun _ _ => rfl) (fun _ _ => rfl)
    (by decide) rfl

def envHealth : Env := mkEnv fun url _ _ _ =>
  if url == "hA/debug/test" then .ok ⟨200, "application/json", "good"⟩
  else if url == "hB/debug/test" then .ok ⟨503, "application/json", ""⟩
  else if url == "hC/debug/test" then .err "Request timeout"
  else .ok ⟨200, "application/json", "zzz"⟩

/-- Claim C9 (amended): checkServerHealth is a total function into a
structured result: healthy with status and payload on a 2xx response whose
body parses, unhealthy with the status on a non-2xx response, unhealthy
with the error message on a transport/timeout rejection, and unhealthy
with the parse error message on a 2xx response whose body fails to
parse. -/
theorem claim_C9_health_check (env : Env) (stA stB stC stD : ApiState)
    (rA : Resp) (dA : JsonVal) (rB : Resp) (mC : String) (rD : Resp) (peD : String)
    (hA : env.fetch (stA.apiBaseUrl ++ "/debug/test") 8000 none 1 = .ok rA)
    (hAok : respOk rA.status = true)
    (hAparse : env.parse rA.body = .ok dA)
    (hB : env.fetch (stB.apiBaseUrl ++ "/debug/test") 8000 none 1 = .ok rB)
    (hBok : respOk rB.status = false)
    (hC : env.fetch (stC.apiBaseUrl ++ "/debug/test") 8000 none 1 = .err mC)
    (hD : env.fetch (stD.apiBaseUrl ++ "/debug/test") 8000 none 1 = .ok rD)
    (hDok : respOk rD.status = true)
    (hDparse : env.parse rD.body = .error peD) :
    checkServerHealth env stA = ⟨true, some rA.status, some dA, none⟩ ∧
    checkServerHealth env stB = ⟨false, some rB.status, none, none⟩ ∧
    checkServerHealth env stC = ⟨false, none, none, some mC⟩ ∧
    checkServerHealth env stD = ⟨false, none, none, some peD⟩ := by
  refine ⟨?_, ?_, ?_, ?_⟩ <;>
    simp [checkServerHealth, hA, hAok, hAparse, hB, hBok, hC, hD, hDok, hDparse]

/-- Counterexample for C9 as stated: a 2xx response whose body fails to
parse yields an unhealthy result carrying the parse error, not a healthy
result with status and payload. -/
theorem claim_C9_counterexample :
    envHealth.fetch ("hD" ++ "/debug/test") 8000 none 1 =
      .ok ⟨200, "application/json", "zzz"⟩ ∧
    respOk 200 = true ∧
    checkServerHealth envHealth ⟨"hD", 0, none⟩ = ⟨false, none, none, some "Unexpected token"⟩ :=
  ⟨rfl, by decide, rfl⟩

/-- Witness for C9 at a concrete environment exercising all four
outcomes. -/
theorem claim_C9_witness :
    checkServerHealth envHealth ⟨"hA", 0, none⟩ =
      ⟨true, some 200, some ⟨none, none, "payload"⟩, none⟩ ∧
    checkServerHealth envHealth ⟨"hB", 0, none⟩ = ⟨false, some 503, none, none⟩ ∧
    checkServerHealth envHealth ⟨"hC", 0, none⟩ = ⟨false, none, none, some "Request timeout"⟩ ∧
    checkServerHealth envHealth ⟨"hD", 0, none⟩ = ⟨false, none, none, some "Unexpected token"⟩ :=
  claim_C9_health_check envHealth ⟨"hA", 0, none⟩ ⟨"hB", 0, none⟩ ⟨"hC", 0, none⟩ ⟨"hD", 0, none⟩
    ⟨200, "application/json", "good"⟩ ⟨none, none, "payload"⟩
    ⟨503, "application/json", ""⟩ "Request timeout"
    ⟨200, "application/json", "zzz"⟩ "Unexpected token"
    rfl (by decide) rfl rfl (by decide) rfl rfl (by decide) rfl
